import Mathlib

/-!
Shallow embedding of the MCP2515 CAN-bus controller driver
(`src/mcp2515.c`, `src/mcp2515.h`).

The driver code runs on an AVR microcontroller and talks to the MCP2515
chip over SPI.  The host side (the port registers `PORTB`, `DDRB`,
`PORTD`, `DDRD`, `PIND`, and the SPI registers `SPCR`, `SPSR`, `SPDR`)
is embedded faithfully from the C source: every statement of the C
functions becomes a state update on `AvrState`.  All hardware registers
are 8-bit, represented as `Nat` with the source's bitwise operations;
`x &= ~(1 << i)` on an 8-bit register is `x &&& (255 ^^^ (1 <<< i))`.

The MCP2515 chip itself is not part of the repository: only the bytes
the driver sends to it are.  Its reaction to those bytes (the register
file updated by WRITE / BIT-MODIFY / RESET commands, the byte it shifts
back during READ and READ-STATUS) is modelled from the spec's bus
protocol table and is marked `Modelled from the spec:` below.

Each driver operation additionally produces a trace of `Ev` events —
one event per C statement that touches the bus or a hardware register —
so that transaction framing (chip-select low, byte exchanges,
chip-select high) can be stated and checked.
-/

namespace Mcp2515

/-! ### Constants from `src/mcp2515.h` (SPI command opcodes) -/

def SPI_RESET : Nat := 0xC0
def SPI_READ : Nat := 0x03
def SPI_READ_RX : Nat := 0x90
def SPI_WRITE : Nat := 0x02
def SPI_WRITE_RX : Nat := 0x40
def SPI_RTS : Nat := 0x80
def SPI_READ_STATUS : Nat := 0xA0
def SPI_RX_STATUS : Nat := 0xB0
def SPI_BIT_MODIFY : Nat := 0x05

/-! ### Constants from `src/mcp2515.c` (pin numbers, filler byte) -/

def CHIP_SELECT : Nat := 2
def INTERRUPT_LOW : Nat := 2
def SERIAL_CLK : Nat := 5
def MOSI : Nat := 4
def MISO : Nat := 3
def FILLER : Nat := 0xFF

/-! ### Bit numbers from the AVR device header (`avr/io.h`)

These are not part of the repository; they are the standard ATmega328P
definitions the source compiles against. -/

def SPE : Nat := 6
def DORD : Nat := 5
def MSTR : Nat := 4
def SPR1 : Nat := 1
def SPR0 : Nat := 0
def SPIF : Nat := 7

/-- Modelled from the spec: `CNF3` is the address of a bus-timing
configuration register of the chip ("Write at least one configuration
register (bus-timing configuration)").  The constant is used by
`initController` but defined in no header of the repository; 0x28 is
the chip's documented CNF3 address.  No claim depends on the value. -/
def CNF3 : Nat := 0x28

/-- Modelled from the spec: `PHSEG21` is a bit number inside the CNF3
bus-timing register.  Used by `initController` but defined in no header
of the repository.  No claim depends on the value. -/
def PHSEG21 : Nat := 1

/-! ### State of the host microcontroller -/

/-- The AVR hardware registers the source reads or writes.  All 8-bit. -/
structure AvrState where
  PORTB : Nat
  DDRB : Nat
  PORTD : Nat
  DDRD : Nat
  PIND : Nat
  SPCR : Nat
  SPSR : Nat
  SPDR : Nat
deriving DecidableEq

/-! ### State of the MCP2515 chip (modelled from the spec) -/

/-- Modelled from the spec: the chip's observable state.  `regs` is the
"chip's internal memory-mapped register space" (8-bit address to 8-bit
value); `status` and `rxStatus` are the two "chip-defined bitfield"
bytes returned by the READ-STATUS variants; `rx` is the sequence of
bytes received from the master since chip-select was last asserted
("exactly one opcode prefixes every transaction; opcode determines how
many subsequent bytes are exchanged and their meaning"). -/
structure ChipState where
  regs : Nat → Nat
  status : Nat
  rxStatus : Nat
  rx : List Nat

/-- Modelled from the spec: the chip's "default register state" after a
RESET command.  The spec gives no concrete values; no claim depends on
them, so all registers default to 0. -/
def mcpDefaultRegs : Nat → Nat := fun _ => 0

/-- Modelled from the spec: the byte the chip shifts out to the master
during one exchange, as a function of the bytes it has received so far
in the current transaction.  Per the spec's bus protocol table: after
READ and an address, the response is the register value; after a
READ-STATUS opcode, the response is the corresponding status bitfield;
every other position carries no defined data (taken as 0). -/
def chipRespond (c : ChipState) : Nat :=
  match c.rx with
  | [op] =>
      if op = SPI_READ_STATUS then c.status
      else if op = SPI_RX_STATUS then c.rxStatus
      else 0
  | [op, a] => if op = SPI_READ then c.regs a else 0
  | _ => 0

/-- Modelled from the spec: how the chip's state changes when it
receives one byte `b` from the master while selected.  Per the spec's
bus protocol table: RESET restores the default register state; WRITE
(opcode, address, value) stores the value; BIT-MODIFY (opcode, address,
mask, value) performs the masked update `(old &&& ~mask) ||| (value &&&
mask)`; all other byte positions only accumulate. -/
def chipConsume (c : ChipState) (b : Nat) : ChipState :=
  match c.rx ++ [b] with
  | [op] =>
      if op = SPI_RESET then { c with regs := mcpDefaultRegs, rx := c.rx ++ [b] }
      else { c with rx := c.rx ++ [b] }
  | [op, a, v] =>
      if op = SPI_WRITE then
        { c with regs := fun x => if x = a then v else c.regs x, rx := c.rx ++ [b] }
      else { c with rx := c.rx ++ [b] }
  | [op, a, m, v] =>
      if op = SPI_BIT_MODIFY then
        { c with
            regs := fun x =>
              if x = a then (c.regs a &&& (255 ^^^ m)) ||| (v &&& m) else c.regs x,
            rx := c.rx ++ [b] }
      else { c with rx := c.rx ++ [b] }
  | _ => { c with rx := c.rx ++ [b] }

/-! ### Combined system state and bus events -/

structure Sys where
  avr : AvrState
  chip : ChipState

/-- Names of the host hardware registers, for configuration events. -/
inductive HReg where
  | PORTB | DDRB | PORTD | DDRD | SPCR | SPSR
deriving DecidableEq

/-- One observable step of a driver operation: chip-select driven low,
chip-select driven high, one SPI byte exchange (recording the byte
sent), a write of value `v` to a host configuration register, or a
blocking delay of `n` microseconds. -/
inductive Ev where
  | csLow : Ev
  | csHigh : Ev
  | xfer : Nat → Ev
  | hw : HReg → Nat → Ev
  | delayUs : Nat → Ev
deriving DecidableEq

/-! ### Primitives -/

/-- Chip-select is asserted when the CHIP_SELECT bit of PORTB reads
low (`PORTB & (1<<CHIP_SELECT)` is zero): the line is active-low. -/
def csAsserted (s : Sys) : Bool := !(s.avr.PORTB.testBit CHIP_SELECT)

/-- Source line `PORTB &= ~(1<<CHIP_SELECT);` — drive chip-select low.
Modelled from the spec on the chip side: the falling edge of
chip-select starts a new transaction, so the chip's received-byte
buffer is cleared. -/
def csAssert (s : Sys) : Sys :=
  { s with
      avr := { s.avr with PORTB := s.avr.PORTB &&& (255 ^^^ (1 <<< CHIP_SELECT)) },
      chip := { s.chip with rx := [] } }

/-- Source line `PORTB |= (1<<CHIP_SELECT);` — drive chip-select high. -/
def csDeassert (s : Sys) : Sys :=
  { s with avr := { s.avr with PORTB := s.avr.PORTB ||| (1 <<< CHIP_SELECT) } }

/-- Source function `sendData` (one full-duplex SPI byte exchange),
lines 37–42: load `SPDR`, wait for the transfer to complete, return
`SPDR`.  The busy-wait on `SPSR & (1<<SPIF)` is modelled separately by
`pollSpif`; here the exchange is taken as completing.  Modelled from
the spec on the chip side: while chip-select is asserted the chip
receives the sent byte and the master receives the chip's response
byte; with chip-select deasserted the chip ignores the bus and the
master reads back an all-ones byte. -/
def sendDataS (s : Sys) (data : Nat) : Sys × Nat :=
  if csAsserted s then
    let resp := chipRespond s.chip
    ({ s with
        avr := { s.avr with SPDR := resp },
        chip := chipConsume s.chip (data % 256) }, resp)
  else
    ({ s with avr := { s.avr with SPDR := FILLER } }, FILLER)

/-- `csAssert` together with its trace event. -/
def csAssertE (s : Sys) : Sys × List Ev := (csAssert s, [Ev.csLow])

/-- `csDeassert` together with its trace event. -/
def csDeassertE (s : Sys) : Sys × List Ev := (csDeassert s, [Ev.csHigh])

/-- `sendDataS` together with its trace event (the 8-bit byte sent). -/
def sendDataE (s : Sys) (data : Nat) : Sys × Nat × List Ev :=
  ((sendDataS s data).1, (sendDataS s data).2, [Ev.xfer (data % 256)])

/-! ### The busy-wait of `sendData`, lines 38–39

`SPDR = data; while (!(SPSR & (1<<SPIF))) {;}` — the loop polls the
volatile status register until the transfer-complete flag is set.
`spsr n` is the value the n-th read of `SPSR` returns; `pollSpif`
runs the loop for at most `fuel` reads starting at read `i` and
returns the index of the read that saw the flag, if any. -/

def pollSpif (spsr : Nat → Nat) : Nat → Nat → Option Nat
  | 0, _ => none
  | fuel + 1, i =>
      if spsr i &&& (1 <<< SPIF) = 0 then pollSpif spsr fuel (i + 1) else some i

/-! ### Driver operations, embedded statement by statement -/

/-- Source function `messageReceived`, lines 22–24:
`return !(PIND & (1<<INTERRUPT_LOW));` — C logical negation yields 1
when the masked read is zero and 0 otherwise. -/
def messageReceived (s : Sys) : Nat :=
  if s.avr.PIND &&& (1 <<< INTERRUPT_LOW) = 0 then 1 else 0

/-- Source function `writeToRegister`, lines 51–61. -/
def writeToRegister (s : Sys) (address data : Nat) : Sys × List Ev :=
  let r1 := csAssertE s
  let r2 := sendDataE r1.1 SPI_WRITE
  let r3 := sendDataE r2.1 address
  let r4 := sendDataE r3.1 data
  let r5 := csDeassertE r4.1
  (r5.1, r1.2 ++ r2.2.2 ++ r3.2.2 ++ r4.2.2 ++ r5.2)

/-- Source function `readRegister`, lines 70–81. -/
def readRegister (s : Sys) (address : Nat) : Sys × Nat × List Ev :=
  let r1 := csAssertE s
  let r2 := sendDataE r1.1 SPI_READ
  let r3 := sendDataE r2.1 address
  let r4 := sendDataE r3.1 FILLER
  let r5 := csDeassertE r4.1
  (r5.1, r4.2.1, r1.2 ++ r2.2.2 ++ r3.2.2 ++ r4.2.2 ++ r5.2)

/-- Source function `bitModify`, lines 101–113. -/
def bitModify (s : Sys) (address mask data : Nat) : Sys × List Ev :=
  let r1 := csAssertE s
  let r2 := sendDataE r1.1 SPI_BIT_MODIFY
  let r3 := sendDataE r2.1 address
  let r4 := sendDataE r3.1 mask
  let r5 := sendDataE r4.1 data
  let r6 := csDeassertE r5.1
  (r6.1, r1.2 ++ r2.2.2 ++ r3.2.2 ++ r4.2.2 ++ r5.2.2 ++ r6.2)

/-- Source function `readStatus`, lines 123–132. -/
def readStatus (s : Sys) (readType : Nat) : Sys × Nat × List Ev :=
  let r1 := csAssertE s
  let r2 := sendDataE r1.1 readType
  let r3 := sendDataE r2.1 FILLER
  let r4 := csDeassertE r3.1
  (r4.1, r3.2.1, r1.2 ++ r2.2.2 ++ r3.2.2 ++ r4.2)

/-- Source function `resetController`, lines 141–149. -/
def resetController (s : Sys) : Sys × List Ev :=
  let r1 := csAssertE s
  let r2 := sendDataE r1.1 SPI_RESET
  let r3 := csDeassertE r2.1
  (r3.1, r1.2 ++ r2.2.2 ++ r3.2)

/-- Source function `initController`, lines 153–198, statement by
statement.  Note the final configuration-write transaction (lines
190–193) asserts chip-select and sends WRITE, CNF3, `1<<PHSEG21`, and
the function then returns `SPDR` without ever driving chip-select high
again. -/
def initController (s : Sys) : Sys × Nat × List Ev :=
  let a1 := { s.avr with PORTB := s.avr.PORTB ||| (1 <<< CHIP_SELECT) }
  let a2 := { a1 with DDRB := a1.DDRB ||| (1 <<< CHIP_SELECT) }
  let a3 := { a2 with
      PORTB := a2.PORTB &&& (255 ^^^ ((1 <<< SERIAL_CLK) ||| (1 <<< MOSI) ||| (1 <<< MISO))) }
  let a4 := { a3 with DDRB := a3.DDRB ||| ((1 <<< SERIAL_CLK) ||| (1 <<< MOSI)) }
  let a5 := { a4 with DDRB := a4.DDRB &&& (255 ^^^ (1 <<< MISO)) }
  let a6 := { a5 with DDRD := a5.DDRD &&& (255 ^^^ (1 <<< INTERRUPT_LOW)) }
  let a7 := { a6 with PORTD := a6.PORTD ||| (1 <<< INTERRUPT_LOW) }
  let a8 := { a7 with SPCR :=
      (1 <<< SPE) ||| (0 <<< DORD) ||| (1 <<< MSTR) ||| (0 <<< SPR1) ||| (1 <<< SPR0) }
  let a9 := { a8 with SPSR := 0 }
  let s9 : Sys := { s with avr := a9 }
  let r10 := resetController s9
  let r11 := csAssertE r10.1
  let r12 := sendDataE r11.1 SPI_WRITE
  let r13 := sendDataE r12.1 CNF3
  let r14 := sendDataE r13.1 (1 <<< PHSEG21)
  (r14.1, r14.1.avr.SPDR,
    [Ev.hw HReg.PORTB a1.PORTB, Ev.hw HReg.DDRB a2.DDRB, Ev.hw HReg.PORTB a3.PORTB,
     Ev.hw HReg.DDRB a4.DDRB, Ev.hw HReg.DDRB a5.DDRB, Ev.hw HReg.DDRD a6.DDRD,
     Ev.hw HReg.PORTD a7.PORTD, Ev.hw HReg.SPCR a8.SPCR, Ev.hw HReg.SPSR 0]
    ++ r10.2 ++ [Ev.delayUs 10] ++ r11.2 ++ r12.2.2 ++ r13.2.2 ++ r14.2.2)

/-! ### Concrete states for witnesses and counterexamples -/

/-- A concrete power-up-like system state: all host registers and chip
registers zero, empty receive buffer. -/
def sys0 : Sys :=
  { avr := { PORTB := 0, DDRB := 0, PORTD := 0, DDRD := 0, PIND := 0,
             SPCR := 0, SPSR := 0, SPDR := 0 },
    chip := { regs := fun _ => 0, status := 0, rxStatus := 0, rx := [] } }

/-- A second concrete system state with all-ones registers. -/
def sys1 : Sys :=
  { avr := { PORTB := 255, DDRB := 255, PORTD := 255, DDRD := 255, PIND := 255,
             SPCR := 255, SPSR := 255, SPDR := 255 },
    chip := { regs := fun _ => 255, status := 0x5A, rxStatus := 0xA5, rx := [] } }

/-! ### Helper lemmas -/

/-- Bit 2 of the chip-select clear mask 251 = 0b11111011 is low. -/
@[simp]
lemma testBit_251_2 : Nat.testBit 251 2 = false := by decide

/-- Bit 2 of the chip-select set mask 4 = 0b00000100 is high. -/
@[simp]
lemma testBit_4_2 : Nat.testBit 4 2 = true := by decide

/-- Clearing the chip-select bit (`PORTB &&& ~(1<<2)`, i.e. `&&& 251`)
leaves that bit low whatever PORTB held before. -/
@[simp]
lemma testBit_and_251 (P : Nat) : (P &&& 251).testBit 2 = false := by
  simp [Nat.testBit_and]

/-- Setting the chip-select bit (`PORTB ||| (1<<2)`) leaves that bit
high whatever PORTB held before. -/
@[simp]
lemma testBit_or_4 (P : Nat) : (P ||| 4).testBit 2 = true := by
  simp [Nat.testBit_or]

/-! ### Claims -/

/-- C3: for every register address R and 8-bit value V, calling
`writeToRegister(R, V)` and then `readRegister(R)` returns V
(write/read round-trip). -/
theorem write_read_roundtrip (s : Sys) (a v : Nat) (ha : a < 256) (hv : v < 256) :
    (readRegister (writeToRegister s a v).1 a).2.1 = v := by
  simp [readRegister, writeToRegister, csAssertE, csDeassertE, sendDataE, sendDataS,
        csAssert, csDeassert, csAsserted, chipRespond, chipConsume,
        SPI_WRITE, SPI_READ, SPI_RESET, SPI_BIT_MODIFY, SPI_READ_STATUS, SPI_RX_STATUS,
        CHIP_SELECT, FILLER, Nat.mod_eq_of_lt ha, Nat.mod_eq_of_lt hv]

/-- Witness for `write_read_roundtrip` at a concrete state and input. -/
theorem write_read_roundtrip_witness :
    (10 < 256 ∧ 77 < 256) ∧ (readRegister (writeToRegister sys0 10 77).1 10).2.1 = 77 :=
  ⟨by decide, write_read_roundtrip sys0 10 77 (by decide) (by decide)⟩

/-- C2: for every register address R, mask M and value V, calling
`bitModify(R, M, V)` and then `readRegister(R)` returns
`(old &&& ~M) ||| (V &&& M)` where old is the register's previous
value: masked bits take the value bits, unmasked bits are preserved. -/
theorem bitModify_read (s : Sys) (a m v : Nat) (ha : a < 256) (hm : m < 256) (hv : v < 256) :
    (readRegister (bitModify s a m v).1 a).2.1 =
      (s.chip.regs a &&& (255 ^^^ m)) ||| (v &&& m) := by
  simp [readRegister, bitModify, csAssertE, csDeassertE, sendDataE, sendDataS,
        csAssert, csDeassert, csAsserted, chipRespond, chipConsume,
        SPI_WRITE, SPI_READ, SPI_RESET, SPI_BIT_MODIFY, SPI_READ_STATUS, SPI_RX_STATUS,
        CHIP_SELECT, FILLER, Nat.mod_eq_of_lt ha, Nat.mod_eq_of_lt hm, Nat.mod_eq_of_lt hv]

/-- Witness for `bitModify_read`: the spec's worked example — mask 0x0F,
value 0xA5 on a register holding 0xFF yields 0xF5. -/
theorem bitModify_read_witness :
    (10 < 256 ∧ 15 < 256 ∧ 165 < 256) ∧
    (readRegister (bitModify sys1 10 15 165).1 10).2.1 =
      (sys1.chip.regs 10 &&& (255 ^^^ 15)) ||| (165 &&& 15) :=
  ⟨by decide, bitModify_read sys1 10 15 165 (by decide) (by decide) (by decide)⟩

/-- C4: `readRegister(address)` performs exactly three byte exchanges
inside its transaction — the READ opcode (0x03), the address, then one
filler byte (0xFF) — and returns the byte received during the filler
exchange, which is the register's current value. -/
theorem readRegister_spec (s : Sys) (a : Nat) (ha : a < 256) :
    (readRegister s a).2.2 =
      [Ev.csLow, Ev.xfer SPI_READ, Ev.xfer a, Ev.xfer FILLER, Ev.csHigh] ∧
    (readRegister s a).2.1 = s.chip.regs a := by
  constructor <;>
  simp [readRegister, csAssertE, csDeassertE, sendDataE, sendDataS,
        csAssert, csDeassert, csAsserted, chipRespond, chipConsume,
        SPI_READ, SPI_RESET, SPI_READ_STATUS, SPI_RX_STATUS,
        CHIP_SELECT, FILLER, Nat.mod_eq_of_lt ha]

/-- Witness for `readRegister_spec` at a concrete state and address. -/
theorem readRegister_spec_witness :
    5 < 256 ∧
    ((readRegister sys0 5).2.2 =
      [Ev.csLow, Ev.xfer SPI_READ, Ev.xfer 5, Ev.xfer FILLER, Ev.csHigh] ∧
     (readRegister sys0 5).2.1 = sys0.chip.regs 5) :=
  ⟨by decide, readRegister_spec sys0 5 (by decide)⟩

/-- C5: `writeToRegister(address, value)` performs exactly three byte
exchanges inside its transaction — the WRITE opcode (0x02), the
address, then the value, in that order — returns no value (its result
type carries only the state and the trace), and afterwards the register
at that address holds the given value. -/
theorem writeToRegister_spec (s : Sys) (a v : Nat) (ha : a < 256) (hv : v < 256) :
    (writeToRegister s a v).2 =
      [Ev.csLow, Ev.xfer SPI_WRITE, Ev.xfer a, Ev.xfer v, Ev.csHigh] ∧
    (writeToRegister s a v).1.chip.regs a = v := by
  constructor <;>
  simp [writeToRegister, csAssertE, csDeassertE, sendDataE, sendDataS,
        csAssert, csDeassert, csAsserted, chipRespond, chipConsume,
        SPI_WRITE, SPI_RESET, SPI_READ_STATUS, SPI_RX_STATUS,
        CHIP_SELECT, Nat.mod_eq_of_lt ha, Nat.mod_eq_of_lt hv]

/-- Witness for `writeToRegister_spec` at a concrete state and input. -/
theorem writeToRegister_spec_witness :
    (1 < 256 ∧ 2 < 256) ∧
    ((writeToRegister sys0 1 2).2 =
      [Ev.csLow, Ev.xfer SPI_WRITE, Ev.xfer 1, Ev.xfer 2, Ev.csHigh] ∧
     (writeToRegister sys0 1 2).1.chip.regs 1 = 2) :=
  ⟨by decide, writeToRegister_spec sys0 1 2 (by decide) (by decide)⟩

/-- C6: `readRegister(address)` leaves the entire chip register state
unchanged: every register (including the addressed one) holds the same
value after the call as before it. -/
theorem readRegister_pure (s : Sys) (a : Nat) :
    ∀ r, (readRegister s a).1.chip.regs r = s.chip.regs r := by
  intro r
  simp [readRegister, csAssertE, csDeassertE, sendDataE, sendDataS,
        csAssert, csDeassert, csAsserted, chipRespond, chipConsume,
        SPI_READ, SPI_WRITE, SPI_RESET, SPI_BIT_MODIFY,
        CHIP_SELECT, FILLER]

/-- An 8-bit masked read is zero exactly when the tested bit is low:
`x &&& 4 = 0 ↔ testBit x 2 = false`. -/
lemma and_four_eq_zero_iff (x : Nat) : x &&& 4 = 0 ↔ x.testBit 2 = false := by
  constructor
  · intro h
    have h2 := congrArg (fun n => Nat.testBit n 2) h
    simpa [Nat.testBit_and] using h2
  · intro h
    apply Nat.eq_of_testBit_eq
    intro i
    rcases eq_or_ne i 2 with rfl | hi
    · simp [Nat.testBit_and, h]
    · have h4 : Nat.testBit 4 i = false := by
        have e : (4 : Nat) = 2 ^ 2 := by norm_num
        rw [e, Nat.testBit_two_pow]
        simp [Ne.symm hi]
      simp [Nat.testBit_and, h4]

/-- C7: `messageReceived()` returns 1 (true) exactly when the interrupt
line bit of PIND reads low, 0 exactly when it reads high — the logical
result is the boolean inverse of the raw reading of bit INTERRUPT_LOW
of PIND — and the result depends on no state other than PIND (and, the
function being pure, nothing is written). -/
theorem messageReceived_spec (s : Sys) :
    (messageReceived s = 1 ↔ s.avr.PIND.testBit INTERRUPT_LOW = false) ∧
    (messageReceived s = 0 ↔ s.avr.PIND.testBit INTERRUPT_LOW = true) ∧
    (∀ t : Sys, t.avr.PIND = s.avr.PIND → messageReceived t = messageReceived s) := by
  by_cases hc : s.avr.PIND &&& 4 = 0
  · have ht : s.avr.PIND.testBit 2 = false := (and_four_eq_zero_iff _).1 hc
    refine ⟨?_, ?_, ?_⟩
    · simp [messageReceived, INTERRUPT_LOW, hc, ht]
    · simp [messageReceived, INTERRUPT_LOW, hc, ht]
    · intro t h
      simp [messageReceived, h]
  · have ht : s.avr.PIND.testBit 2 = true := by
      rcases Bool.eq_false_or_eq_true (s.avr.PIND.testBit 2) with h | h
      · exact h
      · exact absurd ((and_four_eq_zero_iff _).2 h) hc
    refine ⟨?_, ?_, ?_⟩
    · simp [messageReceived, INTERRUPT_LOW, hc, ht]
    · simp [messageReceived, INTERRUPT_LOW, hc, ht]
    · intro t h
      simp [messageReceived, h]

/-- Witness for `messageReceived_spec` at a concrete state: at `sys0`
the interrupt line reads low, so the poll reports a pending message. -/
theorem messageReceived_spec_witness :
    messageReceived sys0 = 1 ↔ sys0.avr.PIND.testBit INTERRUPT_LOW = false :=
  (messageReceived_spec sys0).1

/-- C9: the busy-wait of `sendData` returns (at the first read that
sees the flag) whenever some read of SPSR has the SPIF bit set; if no
read ever has it set, the loop never returns for any finite number of
iterations; and when the exchange does complete, the value `sendData`
returns is exactly the byte left in SPDR by the transfer. -/
theorem sendData_busy_wait (spsr : Nat → Nat) :
    ((∃ n, spsr n &&& (1 <<< SPIF) ≠ 0) → ∃ fuel j, pollSpif spsr fuel 0 = some j) ∧
    ((∀ n, spsr n &&& (1 <<< SPIF) = 0) → ∀ fuel i, pollSpif spsr fuel i = none) ∧
    (∀ s d, (sendDataE s d).2.1 = (sendDataE s d).1.avr.SPDR) := by
  refine ⟨?_, ?_, ?_⟩
  · rintro ⟨n, hn⟩
    have key : ∀ k i, spsr (i + k) &&& (1 <<< SPIF) ≠ 0 →
        ∃ fuel j, pollSpif spsr fuel i = some j := by
      intro k
      induction k with
      | zero =>
          intro i h
          rw [Nat.add_zero] at h
          exact ⟨1, i, by simp [pollSpif, h]⟩
      | succ k ih =>
          intro i h
          by_cases hc : spsr i &&& (1 <<< SPIF) = 0
          · have h2 : spsr ((i + 1) + k) &&& (1 <<< SPIF) ≠ 0 := by
              have e : (i + 1) + k = i + (k + 1) := by omega
              rw [e]
              exact h
            obtain ⟨fuel, j, hf⟩ := ih (i + 1) h2
            exact ⟨fuel + 1, j, by simp [pollSpif, hc, hf]⟩
          · exact ⟨1, i, by simp [pollSpif, hc]⟩
    exact key n 0 (by simpa using hn)
  · intro hall fuel
    induction fuel with
    | zero => intro i; rfl
    | succ fuel ih =>
        intro i
        simp [pollSpif, hall i]
        exact ih (i + 1)
  · intro s d
    by_cases hc : csAsserted s
    · simp [sendDataE, sendDataS, hc]
    · simp [sendDataE, sendDataS, hc]

/-- Witness for `sendData_busy_wait`: with the SPIF bit set on every
read, the busy-wait terminates. -/
theorem sendData_busy_wait_witness :
    ∃ fuel j, pollSpif (fun _ => 128) fuel 0 = some j :=
  (sendData_busy_wait (fun _ => 128)).1 ⟨0, by decide⟩

/-- Bits of the chip-select clear mask 251 below bit 8: every bit is
set except bit 2. -/
lemma testBit_251_eq (i : Nat) (h : i < 8) : Nat.testBit 251 i = decide (i ≠ 2) := by
  interval_cases i <;> decide

/-- Bits of the chip-select set mask 4 below bit 8: only bit 2 is set. -/
lemma testBit_4_eq (i : Nat) (h : i < 8) : Nat.testBit 4 i = decide (i = 2) := by
  interval_cases i <;> decide

/-- A transaction's net effect on PORTB — clear bit 2, later set bit 2 —
leaves every other bit of an 8-bit PORTB unchanged. -/
lemma portb_other_bits (P : Nat) (hP : P < 256) (i : Nat) (hi : i ≠ 2) :
    ((P &&& 251) ||| 4).testBit i = P.testBit i := by
  rcases Nat.lt_or_ge i 8 with h8 | h8
  · have h251 := testBit_251_eq i h8
    have h4 := testBit_4_eq i h8
    simp [Nat.testBit_or, Nat.testBit_and, h251, h4, hi]
  · have hpow : (2 : Nat) ^ 8 ≤ 2 ^ i := Nat.pow_le_pow_right (by norm_num) h8
    have hx : ((P &&& 251) ||| 4) < 2 ^ i := by
      have h1 : P &&& 251 < 2 ^ 8 := lt_of_le_of_lt Nat.and_le_right (by norm_num)
      have h2 : ((P &&& 251) ||| 4) < 2 ^ 8 := Nat.or_lt_two_pow h1 (by norm_num)
      exact lt_of_lt_of_le h2 hpow
    have hP8 : P < 2 ^ i := lt_of_lt_of_le (by simpa using hP) hpow
    rw [Nat.testBit_lt_two_pow hx, Nat.testBit_lt_two_pow hP8]

/-- Host registers after `writeToRegister`: the chip-select clear/set
pair on PORTB, everything else among the port and direction registers
untouched. -/
lemma writeToRegister_host (s : Sys) (a v : Nat) :
    (writeToRegister s a v).1.avr.PORTB = (s.avr.PORTB &&& 251) ||| 4 ∧
    (writeToRegister s a v).1.avr.DDRB = s.avr.DDRB ∧
    (writeToRegister s a v).1.avr.DDRD = s.avr.DDRD ∧
    (writeToRegister s a v).1.avr.PORTD = s.avr.PORTD ∧
    (writeToRegister s a v).1.avr.SPCR = s.avr.SPCR := by
  refine ⟨?_, ?_, ?_, ?_, ?_⟩ <;>
  simp [writeToRegister, csAssertE, csDeassertE, sendDataE, sendDataS,
        csAssert, csDeassert, csAsserted, chipRespond, chipConsume,
        SPI_WRITE, SPI_RESET, SPI_READ_STATUS, SPI_RX_STATUS, CHIP_SELECT]

/-- Host registers after `readRegister`. -/
lemma readRegister_host (s : Sys) (a : Nat) :
    (readRegister s a).1.avr.PORTB = (s.avr.PORTB &&& 251) ||| 4 ∧
    (readRegister s a).1.avr.DDRB = s.avr.DDRB ∧
    (readRegister s a).1.avr.DDRD = s.avr.DDRD ∧
    (readRegister s a).1.avr.PORTD = s.avr.PORTD ∧
    (readRegister s a).1.avr.SPCR = s.avr.SPCR := by
  refine ⟨?_, ?_, ?_, ?_, ?_⟩ <;>
  simp [readRegister, csAssertE, csDeassertE, sendDataE, sendDataS,
        csAssert, csDeassert, csAsserted, chipRespond, chipConsume,
        SPI_READ, SPI_RESET, SPI_READ_STATUS, SPI_RX_STATUS, CHIP_SELECT, FILLER]

/-- Host registers after `bitModify`. -/
lemma bitModify_host (s : Sys) (a m v : Nat) :
    (bitModify s a m v).1.avr.PORTB = (s.avr.PORTB &&& 251) ||| 4 ∧
    (bitModify s a m v).1.avr.DDRB = s.avr.DDRB ∧
    (bitModify s a m v).1.avr.DDRD = s.avr.DDRD ∧
    (bitModify s a m v).1.avr.PORTD = s.avr.PORTD ∧
    (bitModify s a m v).1.avr.SPCR = s.avr.SPCR := by
  refine ⟨?_, ?_, ?_, ?_, ?_⟩ <;>
  simp [bitModify, csAssertE, csDeassertE, sendDataE, sendDataS,
        csAssert, csDeassert, csAsserted, chipRespond, chipConsume,
        SPI_BIT_MODIFY, SPI_RESET, SPI_READ_STATUS, SPI_RX_STATUS, CHIP_SELECT]

/-- Host registers after `readStatus`. -/
lemma readStatus_host (s : Sys) (t : Nat) :
    (readStatus s t).1.avr.PORTB = (s.avr.PORTB &&& 251) ||| 4 ∧
    (readStatus s t).1.avr.DDRB = s.avr.DDRB ∧
    (readStatus s t).1.avr.DDRD = s.avr.DDRD ∧
    (readStatus s t).1.avr.PORTD = s.avr.PORTD ∧
    (readStatus s t).1.avr.SPCR = s.avr.SPCR := by
  refine ⟨?_, ?_, ?_, ?_, ?_⟩ <;>
  simp [readStatus, csAssertE, csDeassertE, sendDataE, sendDataS,
        csAssert, csDeassert, csAsserted, chipRespond, chipConsume,
        SPI_RESET, SPI_READ_STATUS, SPI_RX_STATUS, CHIP_SELECT, FILLER]

/-- C10: each of the four register-access operations modifies, among
the host's port and direction registers, only the chip-select bit of
PORTB: every other bit of an (8-bit) PORTB and all of DDRB, DDRD,
PORTD and SPCR are unchanged when the operation returns. -/
theorem regops_host_frame (s : Sys) (a m v t : Nat) (hP : s.avr.PORTB < 256) :
    ((∀ i, i ≠ 2 → (writeToRegister s a v).1.avr.PORTB.testBit i = s.avr.PORTB.testBit i) ∧
      (writeToRegister s a v).1.avr.DDRB = s.avr.DDRB ∧
      (writeToRegister s a v).1.avr.DDRD = s.avr.DDRD ∧
      (writeToRegister s a v).1.avr.PORTD = s.avr.PORTD ∧
      (writeToRegister s a v).1.avr.SPCR = s.avr.SPCR) ∧
    ((∀ i, i ≠ 2 → (readRegister s a).1.avr.PORTB.testBit i = s.avr.PORTB.testBit i) ∧
      (readRegister s a).1.avr.DDRB = s.avr.DDRB ∧
      (readRegister s a).1.avr.DDRD = s.avr.DDRD ∧
      (readRegister s a).1.avr.PORTD = s.avr.PORTD ∧
      (readRegister s a).1.avr.SPCR = s.avr.SPCR) ∧
    ((∀ i, i ≠ 2 → (bitModify s a m v).1.avr.PORTB.testBit i = s.avr.PORTB.testBit i) ∧
      (bitModify s a m v).1.avr.DDRB = s.avr.DDRB ∧
      (bitModify s a m v).1.avr.DDRD = s.avr.DDRD ∧
      (bitModify s a m v).1.avr.PORTD = s.avr.PORTD ∧
      (bitModify s a m v).1.avr.SPCR = s.avr.SPCR) ∧
    ((∀ i, i ≠ 2 → (readStatus s t).1.avr.PORTB.testBit i = s.avr.PORTB.testBit i) ∧
      (readStatus s t).1.avr.DDRB = s.avr.DDRB ∧
      (readStatus s t).1.avr.DDRD = s.avr.DDRD ∧
      (readStatus s t).1.avr.PORTD = s.avr.PORTD ∧
      (readStatus s t).1.avr.SPCR = s.avr.SPCR) := by
  obtain ⟨w1, w2, w3, w4, w5⟩ := writeToRegister_host s a v
  obtain ⟨r1, r2, r3, r4, r5⟩ := readRegister_host s a
  obtain ⟨b1, b2, b3, b4, b5⟩ := bitModify_host s a m v
  obtain ⟨t1, t2, t3, t4, t5⟩ := readStatus_host s t
  refine ⟨⟨?_, w2, w3, w4, w5⟩, ⟨?_, r2, r3, r4, r5⟩, ⟨?_, b2, b3, b4, b5⟩,
          ⟨?_, t2, t3, t4, t5⟩⟩ <;>
    intro i hi
  · rw [w1]; exact portb_other_bits _ hP _ hi
  · rw [r1]; exact portb_other_bits _ hP _ hi
  · rw [b1]; exact portb_other_bits _ hP _ hi
  · rw [t1]; exact portb_other_bits _ hP _ hi

/-- Witness for `regops_host_frame` at a concrete state and concrete
inputs, with one concrete non-chip-select bit of PORTB compared. -/
theorem regops_host_frame_witness :
    sys1.avr.PORTB < 256 ∧
    (writeToRegister sys1 1 2).1.avr.PORTB.testBit 0 = sys1.avr.PORTB.testBit 0 ∧
    (readStatus sys1 160).1.avr.SPCR = sys1.avr.SPCR :=
  ⟨by decide,
   (regops_host_frame sys1 1 3 2 160 (by decide)).1.1 0 (by decide),
   (regops_host_frame sys1 1 3 2 160 (by decide)).2.2.2.2.2.2.2⟩

/-- C1: evaluation of every bus-opening operation at the concrete
power-up state `sys0`.  The five operations `writeToRegister`,
`readRegister`, `bitModify`, `readStatus` and `resetController` each
drive chip-select low first, perform only byte exchanges in between,
drive it high exactly once at the end, and return with the chip-select
bit of PORTB high.  The configuration write inside `initController`
violates the claim: its transaction opens with chip-select low and the
function returns with the chip-select bit of PORTB still low — no
final chip-select-high event follows the configuration write. -/
theorem cs_discipline_eval :
    (writeToRegister sys0 1 2).2 =
      [Ev.csLow, Ev.xfer 2, Ev.xfer 1, Ev.xfer 2, Ev.csHigh] ∧
    (writeToRegister sys0 1 2).1.avr.PORTB.testBit 2 = true ∧
    (readRegister sys0 5).2.2 =
      [Ev.csLow, Ev.xfer 3, Ev.xfer 5, Ev.xfer 255, Ev.csHigh] ∧
    (readRegister sys0 5).1.avr.PORTB.testBit 2 = true ∧
    (bitModify sys0 10 15 165).2 =
      [Ev.csLow, Ev.xfer 5, Ev.xfer 10, Ev.xfer 15, Ev.xfer 165, Ev.csHigh] ∧
    (bitModify sys0 10 15 165).1.avr.PORTB.testBit 2 = true ∧
    (readStatus sys0 SPI_READ_STATUS).2.2 =
      [Ev.csLow, Ev.xfer 160, Ev.xfer 255, Ev.csHigh] ∧
    (readStatus sys0 SPI_READ_STATUS).1.avr.PORTB.testBit 2 = true ∧
    (resetController sys0).2 = [Ev.csLow, Ev.xfer 192, Ev.csHigh] ∧
    (resetController sys0).1.avr.PORTB.testBit 2 = true ∧
    (initController sys0).2.2 =
      [Ev.hw HReg.PORTB 4, Ev.hw HReg.DDRB 4, Ev.hw HReg.PORTB 4,
       Ev.hw HReg.DDRB 52, Ev.hw HReg.DDRB 52, Ev.hw HReg.DDRD 0,
       Ev.hw HReg.PORTD 4, Ev.hw HReg.SPCR 81, Ev.hw HReg.SPSR 0,
       Ev.csLow, Ev.xfer 192, Ev.csHigh, Ev.delayUs 10,
       Ev.csLow, Ev.xfer 2, Ev.xfer 40, Ev.xfer 2] ∧
    (initController sys0).1.avr.PORTB.testBit 2 = false := by
  decide

/-- C8 counterexample: at the concrete state `sys1` the claim's
"framed by chip-select assert and deassert" is false for the
configuration write inside `initController` — the last event of the
whole `initController` trace is the final data byte, not a
chip-select-high event, and the function returns with the chip-select
bit of PORTB low (still asserted). -/
theorem initController_no_final_deassert :
    (initController sys1).2.2.getLast? = some (Ev.xfer 2) ∧
    ¬ ((initController sys1).1.avr.PORTB.testBit 2 = true) := by
  decide

/-- C8 (amended): `initController` performs its steps in the specified
order — chip-select configured as a driven output initially deasserted,
clock and data-out configured as outputs driven low with data-in as
input, the interrupt line configured as input pulled high, the SPI
bus-master hardware enabled, `resetController` called, the fixed
10-microsecond delay, then a raw transaction that asserts chip-select
and sends the WRITE opcode, CNF3 and the value — the same bytes
`writeToRegister` would send, with the same effect on the chip's
register file, except that chip-select is never deasserted before the
function returns. -/
theorem initController_sequence (s : Sys) :
    (initController s).2.2 =
      [Ev.hw HReg.PORTB (s.avr.PORTB ||| 4),
       Ev.hw HReg.DDRB (s.avr.DDRB ||| 4),
       Ev.hw HReg.PORTB ((s.avr.PORTB ||| 4) &&& 199),
       Ev.hw HReg.DDRB ((s.avr.DDRB ||| 4) ||| 48),
       Ev.hw HReg.DDRB (((s.avr.DDRB ||| 4) ||| 48) &&& 247),
       Ev.hw HReg.DDRD (s.avr.DDRD &&& 251),
       Ev.hw HReg.PORTD (s.avr.PORTD ||| 4),
       Ev.hw HReg.SPCR 81, Ev.hw HReg.SPSR 0,
       Ev.csLow, Ev.xfer SPI_RESET, Ev.csHigh,
       Ev.delayUs 10,
       Ev.csLow, Ev.xfer SPI_WRITE, Ev.xfer CNF3, Ev.xfer (1 <<< PHSEG21)] ∧
    (s.avr.PORTB ||| 4).testBit 2 = true ∧
    (s.avr.DDRB ||| 4).testBit 2 = true ∧
    ((s.avr.PORTB ||| 4) &&& 199).testBit 5 = false ∧
    ((s.avr.PORTB ||| 4) &&& 199).testBit 4 = false ∧
    (((s.avr.DDRB ||| 4) ||| 48) &&& 247).testBit 5 = true ∧
    (((s.avr.DDRB ||| 4) ||| 48) &&& 247).testBit 4 = true ∧
    (((s.avr.DDRB ||| 4) ||| 48) &&& 247).testBit 3 = false ∧
    (s.avr.DDRD &&& 251).testBit 2 = false ∧
    (s.avr.PORTD ||| 4).testBit 2 = true ∧
    (initController s).1.avr.SPCR = 81 ∧
    (initController s).1.chip.regs CNF3 = 1 <<< PHSEG21 ∧
    (∀ r, r ≠ CNF3 → (initController s).1.chip.regs r = mcpDefaultRegs r) ∧
    (writeToRegister s CNF3 (1 <<< PHSEG21)).2 =
      ((initController s).2.2.drop 13) ++ [Ev.csHigh] ∧
    (initController s).1.avr.PORTB.testBit 2 = false := by
  refine ⟨rfl, testBit_or_4 _, testBit_or_4 _, ?_, ?_, ?_, ?_, ?_,
          testBit_and_251 _, testBit_or_4 _, ?_, ?_, ?_, rfl, ?_⟩
  · have h : Nat.testBit 199 5 = false := by decide
    simp [Nat.testBit_and, h]
  · have h : Nat.testBit 199 4 = false := by decide
    simp [Nat.testBit_and, h]
  · have h48 : Nat.testBit 48 5 = true := by decide
    have h247 : Nat.testBit 247 5 = true := by decide
    simp [Nat.testBit_and, Nat.testBit_or, h48, h247]
  · have h48 : Nat.testBit 48 4 = true := by decide
    have h247 : Nat.testBit 247 4 = true := by decide
    simp [Nat.testBit_and, Nat.testBit_or, h48, h247]
  · have h : Nat.testBit 247 3 = false := by decide
    simp [Nat.testBit_and, h]
  · simp [initController, resetController, csAssertE, csDeassertE, sendDataE, sendDataS,
          csAssert, csDeassert, csAsserted, chipRespond, chipConsume, mcpDefaultRegs,
          SPI_WRITE, SPI_RESET, SPI_READ, SPI_BIT_MODIFY, SPI_READ_STATUS, SPI_RX_STATUS,
          CHIP_SELECT, SERIAL_CLK, MOSI, MISO, INTERRUPT_LOW,
          SPE, DORD, MSTR, SPR1, SPR0, CNF3, PHSEG21]
  · simp [initController, resetController, csAssertE, csDeassertE, sendDataE, sendDataS,
          csAssert, csDeassert, csAsserted, chipRespond, chipConsume, mcpDefaultRegs,
          SPI_WRITE, SPI_RESET, SPI_READ, SPI_BIT_MODIFY, SPI_READ_STATUS, SPI_RX_STATUS,
          CHIP_SELECT, SERIAL_CLK, MOSI, MISO, INTERRUPT_LOW,
          SPE, DORD, MSTR, SPR1, SPR0, CNF3, PHSEG21]
  · intro r hr
    simp [CNF3] at hr
    simp [initController, resetController, csAssertE, csDeassertE, sendDataE, sendDataS,
          csAssert, csDeassert, csAsserted, chipRespond, chipConsume, mcpDefaultRegs,
          SPI_WRITE, SPI_RESET, SPI_READ, SPI_BIT_MODIFY, SPI_READ_STATUS, SPI_RX_STATUS,
          CHIP_SELECT, SERIAL_CLK, MOSI, MISO, INTERRUPT_LOW,
          SPE, DORD, MSTR, SPR1, SPR0, CNF3, PHSEG21, hr]
  · simp [initController, resetController, csAssertE, csDeassertE, sendDataE, sendDataS,
          csAssert, csDeassert, csAsserted, chipRespond, chipConsume, mcpDefaultRegs,
          SPI_WRITE, SPI_RESET, SPI_READ, SPI_BIT_MODIFY, SPI_READ_STATUS, SPI_RX_STATUS,
          CHIP_SELECT, SERIAL_CLK, MOSI, MISO, INTERRUPT_LOW,
          SPE, DORD, MSTR, SPR1, SPR0, CNF3, PHSEG21]

end Mcp2515
